import Mathlib

/-!
Verification of the ai-tracker repository: a shallow embedding of its
fetch / cache / merge / persistence layer, with theorems settling the
specification's claims about it.

Python dictionaries with dynamic keys are embedded as functions
`String → Option PyVal`; `none` means the key is absent, while the
Python value `None` is the distinguished value `PyVal.none`.
-/

/-- A Python value as it occurs in the tracker's record dictionaries. -/
inductive PyVal where
  | none : PyVal
  | int : Int → PyVal
  | str : String → PyVal
  | list : List PyVal → PyVal
  | dict : List (String × PyVal) → PyVal

/-- A Python dictionary: keys mapped to values, `Option.none` = key absent. -/
def PyDict : Type := String → Option PyVal

/-- The empty dictionary `{}`. -/
def emptyDict : PyDict := fun _ => Option.none

/-- Build a dictionary from explicit key/value pairs (later pairs win,
as in a Python dict display). -/
def dictOf (l : List (String × PyVal)) : PyDict :=
  l.foldl (fun d kv k => if k = kv.1 then some kv.2 else d k) emptyDict

/-- Python item assignment `d[k] = v` (also one-key `update`). -/
def setKey (d : PyDict) (k : String) (v : PyVal) : PyDict :=
  fun k' => if k' = k then some v else d k'

/-- Python `d.update` over a list of pairs, applied left to right. -/
def setKeys (d : PyDict) (l : List (String × PyVal)) : PyDict :=
  l.foldl (fun d kv => setKey d kv.1 kv.2) d

/-- Python `d.get(k, default)`: the stored value when the key is present
(even when that value is Python `None`), otherwise the default. -/
def pyGet (d : PyDict) (k : String) (dflt : PyVal) : PyVal :=
  (d k).getD dflt

/-- Python `d.get(k, 0)` read as an integer; non-integer values fall back to
the default (the tracker only stores integers under these keys). -/
def getIntD (d : PyDict) (k : String) (dflt : Int) : Int :=
  match d k with
  | some (PyVal.int n) => n
  | _ => dflt

/-- Python `d.get` read as a string, defaulting on absence or non-string. -/
def getStrD (d : PyDict) (k : String) (dflt : String) : String :=
  match d k with
  | some (PyVal.str s) => s
  | _ => dflt

/-- The Python dict spread of new over old: keys of `new` win, other keys keep `old`'s value. -/
def dictMerge (old new : PyDict) : PyDict :=
  fun k => match new k with
    | some v => some v
    | Option.none => old k

/-- The persisted project table: identity `"owner/name"` → record. -/
def Store : Type := String → Option PyDict

/-- The empty table (no `projects.json` yet). -/
def emptyStore : Store := fun _ => Option.none

/-- The history list of a record: `existing["history"]` if it is a list,
`[]` after the code's `if "history" not in existing` initialisation. -/
def historyOf (d : PyDict) : List PyVal :=
  match d "history" with
  | some (PyVal.list l) => l
  | _ => []

/-- One history entry `{"date": today, "stars": s, "forks": f}` as built by
`json_store.update_project`. -/
def histEntry (today : String) (stars forks : PyVal) : PyVal :=
  PyVal.dict [("date", PyVal.str today), ("stars", stars), ("forks", forks)]

/-- Embeds `json_store.update_project` (src/storage/json_store.py:43-70):
if the identity is present, append a history entry holding the existing
record's stars/forks dated `today`, then store `{**existing, **data}`;
otherwise store `data` as-is.  `today` stands for `str(date.today())`. -/
def update_project (today full_name : String) (data : PyDict)
    (projects : Store) : Store :=
  match projects full_name with
  | some existing =>
      let entry := histEntry today (pyGet existing "stars" (PyVal.int 0))
        (pyGet existing "forks" (PyVal.int 0))
      let existing' := setKey existing "history"
        (PyVal.list (historyOf existing ++ [entry]))
      fun n => if n = full_name then some (dictMerge existing' data) else projects n
  | Option.none =>
      fun n => if n = full_name then some data else projects n

/-- Embeds the persistence loop of `main.run_tracker` (src/main.py:83-87):
for each fetched record, read `full_name` (default `""`), skip falsy names,
otherwise upsert the record into the store. -/
def runCycle (today : String) (repos : List PyDict) (store : Store) : Store :=
  repos.foldl (fun st repo =>
    let full_name := getStrD repo "full_name" ""
    if full_name = "" then st else update_project today full_name repo st) store

/-- Embeds the cross-source combination step: `main.run_tracker` line 83 and
`markdown.generate_daily_report` line 106 both form
`all_projects = trending + search_results + watchlist` by list concatenation. -/
def aggregateAll (trending searchResults watch : List PyDict) : List PyDict :=
  trending ++ searchResults ++ watch

/-- Number of entries in a combined list carrying a given identity. -/
def countIdent (i : String) (l : List PyDict) : Nat :=
  l.countP (fun r => getStrD r "full_name" "" == i)

/-- Field `k` of the record stored under identity `n`. -/
def projField (st : Store) (n k : String) : Option PyVal :=
  (st n).bind (fun d => d k)

/-- Helper: an upsert over a present identity stores exactly the old history
with one appended entry holding the *previous* stars/forks dated `today`,
provided the incoming snapshot carries no `history` key (adapter outputs
never do). -/
lemma update_project_history_aux (today full_name : String) (data : PyDict)
    (projects : Store) (existing : PyDict)
    (hex : projects full_name = some existing)
    (hdata : data "history" = Option.none) :
    projField (update_project today full_name data projects) full_name "history" =
      some (PyVal.list (historyOf existing ++
        [histEntry today (pyGet existing "stars" (PyVal.int 0))
          (pyGet existing "forks" (PyVal.int 0))])) := by
  unfold projField update_project
  rw [hex]
  simp [dictMerge, hdata, setKey]

/-- Claim C2: for an identity already present in the store, each call to
`update_project` appends exactly one HistoryEntry whose stars and forks are
the previously persisted values (not those of the new snapshot) and whose
date is today; a call appends one entry and no more. -/
theorem update_project_appends_one_previous_entry (today full_name : String)
    (data : PyDict) (projects : Store) (existing : PyDict)
    (hex : projects full_name = some existing)
    (hdata : data "history" = Option.none) :
    projField (update_project today full_name data projects) full_name "history" =
      some (PyVal.list (historyOf existing ++
        [histEntry today (pyGet existing "stars" (PyVal.int 0))
          (pyGet existing "forks" (PyVal.int 0))])) :=
  update_project_history_aux today full_name data projects existing hex hdata

/-- Concrete run of the C2 theorem: a second upsert for `octo/repo` appends
the single entry `{date, stars := 100, forks := 7}` taken from the previous
record, not the new snapshot's 150/9. -/
theorem update_project_appends_one_previous_entry_witness :
    projField (update_project "2026-10-12" "octo/repo"
        (dictOf [("full_name", PyVal.str "octo/repo"), ("stars", PyVal.int 150),
          ("forks", PyVal.int 9)])
        (fun n => if n = "octo/repo" then
          some (dictOf [("stars", PyVal.int 100), ("forks", PyVal.int 7)])
        else Option.none)) "octo/repo" "history" =
      some (PyVal.list [histEntry "2026-10-12" (PyVal.int 100) (PyVal.int 7)]) :=
  update_project_appends_one_previous_entry "2026-10-12" "octo/repo"
    (dictOf [("full_name", PyVal.str "octo/repo"), ("stars", PyVal.int 150),
      ("forks", PyVal.int 9)])
    (fun n => if n = "octo/repo" then
      some (dictOf [("stars", PyVal.int 100), ("forks", PyVal.int 7)])
    else Option.none)
    (dictOf [("stars", PyVal.int 100), ("forks", PyVal.int 7)]) (by rfl) (by rfl)

/-- The existing record used in the C5 counterexample. -/
def existingC5 : PyDict :=
  dictOf [("description", PyVal.str "old text"), ("stars", PyVal.int 1)]

/-- A store holding `existingC5` under `a/b`. -/
def storeC5 : Store := fun n => if n = "a/b" then some existingC5 else Option.none

/-- A new snapshot whose `description` key is present but null. -/
def dataC5 : PyDict :=
  dictOf [("full_name", PyVal.str "a/b"), ("description", PyVal.none),
    ("stars", PyVal.int 2)]

/-- Counterexample to claim C5: `update_project` merges by key *presence*,
not by non-nullness — a null `description` in the new snapshot overwrites
the old non-null description instead of preserving it. -/
theorem update_project_null_overwrites_cex :
    projField (update_project "2026-10-12" "a/b" dataC5 storeC5) "a/b" "description"
        = some PyVal.none ∧
      projField storeC5 "a/b" "description" = some (PyVal.str "old text") ∧
      PyVal.none ≠ PyVal.str "old text" :=
  ⟨rfl, rfl, fun h => PyVal.noConfusion h⟩

/-- Claim C5 as amended: every field *present* in the new snapshot (null
included) replaces the old value, and every field missing from the new
snapshot — other than the rewritten `history` — is preserved unchanged. -/
theorem update_project_merge_key_presence (today full_name : String)
    (data : PyDict) (projects : Store) (existing : PyDict)
    (hex : projects full_name = some existing) :
    (∀ k v, data k = some v →
      projField (update_project today full_name data projects) full_name k = some v) ∧
    (∀ k, data k = Option.none → k ≠ "history" →
      projField (update_project today full_name data projects) full_name k =
        existing k) := by
  constructor
  · intro k v hk
    unfold projField update_project
    rw [hex]
    simp [dictMerge, hk]
  · intro k hk hne
    unfold projField update_project
    rw [hex]
    simp [dictMerge, hk, setKey, hne]

/-- Concrete run of the amended C5 theorem: the present key `stars` (value 2)
wins over the old value 1, and the absent key `language` keeps the old
record's value. -/
theorem update_project_merge_key_presence_witness :
    projField (update_project "2026-10-12" "a/b" dataC5 storeC5) "a/b" "stars"
        = some (PyVal.int 2) ∧
      projField (update_project "2026-10-12" "a/b" dataC5 storeC5) "a/b" "language"
        = existingC5 "language" :=
  ⟨(update_project_merge_key_presence "2026-10-12" "a/b" dataC5 storeC5 existingC5
      (by rfl)).1 "stars" (PyVal.int 2) (by rfl),
   (update_project_merge_key_presence "2026-10-12" "a/b" dataC5 storeC5 existingC5
      (by rfl)).2 "language" (by rfl) (by decide)⟩

/-- The snapshot replayed across cycles in the C4 counterexample. -/
def repoC4 : PyDict :=
  dictOf [("full_name", PyVal.str "ai/proj"), ("stars", PyVal.int 5),
    ("forks", PyVal.int 2)]

/-- Counterexample to claim C4: re-running the same cycle for the same date
over the same store is not idempotent — the second run adds a history entry
where the first left none, and the third run duplicates that entry exactly. -/
theorem runCycle_rerun_duplicates_history_cex :
    projField (runCycle "2026-10-12" [repoC4] emptyStore) "ai/proj" "history"
        = Option.none ∧
      projField (runCycle "2026-10-12" [repoC4]
          (runCycle "2026-10-12" [repoC4] emptyStore)) "ai/proj" "history"
        = some (PyVal.list [histEntry "2026-10-12" (PyVal.int 5) (PyVal.int 2)]) ∧
      projField (runCycle "2026-10-12" [repoC4]
          (runCycle "2026-10-12" [repoC4]
            (runCycle "2026-10-12" [repoC4] emptyStore))) "ai/proj" "history"
        = some (PyVal.list [histEntry "2026-10-12" (PyVal.int 5) (PyVal.int 2),
            histEntry "2026-10-12" (PyVal.int 5) (PyVal.int 2)]) :=
  ⟨rfl, rfl, rfl⟩

/-- Claim C4 as amended: a rerun of a cycle over a store in which an identity
is already persisted appends one further HistoryEntry for that identity (so
reruns for the same date grow the history instead of leaving it unchanged);
commits happen per upsert, not once per cycle. -/
theorem runCycle_rerun_appends_per_identity (today name : String)
    (data : PyDict) (store : Store) (existing : PyDict)
    (hex : store name = some existing)
    (hname : data "full_name" = some (PyVal.str name)) (hne : name ≠ "")
    (hdata : data "history" = Option.none) :
    projField (runCycle today [data] store) name "history" =
      some (PyVal.list (historyOf existing ++
        [histEntry today (pyGet existing "stars" (PyVal.int 0))
          (pyGet existing "forks" (PyVal.int 0))])) := by
  unfold runCycle
  simp only [List.foldl, getStrD, hname]
  rw [if_neg hne]
  exact update_project_history_aux today name data store existing hex hdata

/-- Concrete run of the amended C4 theorem: replaying one snapshot over a
store already holding it appends the previous-values entry. -/
theorem runCycle_rerun_appends_per_identity_witness :
    projField (runCycle "2026-10-12" [repoC4]
        (fun n => if n = "ai/proj" then some repoC4 else Option.none))
        "ai/proj" "history" =
      some (PyVal.list [histEntry "2026-10-12" (PyVal.int 5) (PyVal.int 2)]) :=
  runCycle_rerun_appends_per_identity "2026-10-12" "ai/proj" repoC4 _ repoC4
    (by rfl) (by rfl) (by decide) (by rfl)

/-- A trending-sourced record for the C1 counterexample. -/
def trendRepoC1 : PyDict :=
  dictOf [("full_name", PyVal.str "ai/proj"), ("source", PyVal.str "trending")]

/-- The same identity as surfaced by the search adapter. -/
def searchRepoC1 : PyDict :=
  dictOf [("full_name", PyVal.str "ai/proj"), ("source", PyVal.str "search")]

/-- Counterexample to claim C1: when the same identity is returned by two
different source adapters, the combined list handed to the report and
persistence stage carries two entries for it, not exactly one. -/
theorem aggregateAll_duplicate_identity_cex :
    countIdent "ai/proj" (aggregateAll [trendRepoC1] [searchRepoC1] []) = 2 ∧
      countIdent "ai/proj" (aggregateAll [trendRepoC1] [searchRepoC1] []) ≠ 1 := by
  refine ⟨rfl, ?_⟩
  intro h
  rw [show countIdent "ai/proj" (aggregateAll [trendRepoC1] [searchRepoC1] []) = 2
    from rfl] at h
  exact absurd h (by omega)

/-- Strip `pat` from the front of a character list, if it is a prefix. -/
def stripPrefixChars : List Char → List Char → Option (List Char)
  | [], l => some l
  | _ :: _, [] => Option.none
  | p :: ps, c :: cs => if c = p then stripPrefixChars ps cs else Option.none

/-- Left-to-right non-overlapping replacement of `pat` by `rep`, the
semantics of Python `str.replace`; the fuel argument (the input length)
only makes the recursion structural. -/
def replaceFuel (pat rep : List Char) : Nat → List Char → List Char
  | 0, l => l
  | fuel + 1, l =>
    match l with
    | [] => []
    | c :: cs =>
      match stripPrefixChars pat (c :: cs) with
      | some rest => rep ++ replaceFuel pat rep fuel rest
      | Option.none => c :: replaceFuel pat rep fuel cs

/-- Python `text.replace(pat, rep)` over character lists. -/
def pyReplaceL (pat rep l : List Char) : List Char := replaceFuel pat rep l.length l

/-- The cleaning chain of `_parse_star_count`:
`text.lower().replace(",", "").replace(" ", "").replace("stars", "").replace("k", "000")`. -/
def cleanStarText (text : String) : List Char :=
  pyReplaceL ['k'] ['0', '0', '0']
    (pyReplaceL "stars".data []
      (pyReplaceL [' '] []
        (pyReplaceL [','] [] (text.data.map Char.toLower))))

/-- The value a Python float literal denotes: a finite decimal
`(-1)^neg * mant * 10^exp10`, a signed infinity, or NaN. -/
inductive FloatLit where
  | finite (neg : Bool) (mant : Nat) (exp10 : Int)
  | inf (neg : Bool)
  | nan
deriving DecidableEq

/-- Numeric value of a digit run. -/
def natOfDigits (ds : List Char) : Nat :=
  ds.foldl (fun a c => a * 10 + (c.toNat - 48)) 0

/-- The ASCII whitespace `float()` tolerates around a literal
(space, tab, newline, carriage return, vertical tab, form feed). -/
def isPyWs (c : Char) : Bool :=
  c == ' ' || c == '\t' || c == '\n' || c == '\r' ||
    c.toNat == 11 || c.toNat == 12

/-- Strip the surrounding whitespace `float()` ignores. -/
def stripWs (l : List Char) : List Char :=
  ((l.dropWhile isPyWs).reverse.dropWhile isPyWs).reverse

/-- Characters a PEP 515 digit group may contain: digits and underscores. -/
def isDigitU (c : Char) : Bool := c.isDigit || c == '_'

/-- No two adjacent underscores in a digit group. -/
def noDoubleU : List Char → Bool
  | [] => true
  | '_' :: '_' :: _ => false
  | _ :: rest => noDoubleU rest

/-- A valid PEP 515 digit group: begins and ends with a digit and has no
adjacent underscores (so every underscore sits between two digits). -/
def validGroup (l : List Char) : Bool :=
  (match l.head? with | some c => c.isDigit | Option.none => false) &&
    (match l.getLast? with | some c => c.isDigit | Option.none => false) &&
    noDoubleU l

/-- Python `float(text)` on an already lowercased string: surrounding
whitespace, an optional sign, then `inf`/`infinity`/`nan` or a decimal
literal `digits[.digits][e[sign]digits]` whose digit groups may carry
PEP 515 underscores (`1_2` reads as 12) and which has at least one digit
before the exponent; anything else is a `ValueError` (`Option.none`).
The result is the exact decimal value denoted; `floatRound` below applies
the binary64 overflow `float()` performs on it. -/
def parsePyFloat (cs0 : List Char) : Option FloatLit :=
  let cs := stripWs cs0
  let (neg, cs1) : Bool × List Char :=
    match cs with
    | '-' :: r => (true, r)
    | '+' :: r => (false, r)
    | r => (false, r)
  if cs1 = ['i', 'n', 'f'] ∨ cs1 = ['i', 'n', 'f', 'i', 'n', 'i', 't', 'y'] then
    some (FloatLit.inf neg)
  else if cs1 = ['n', 'a', 'n'] then
    some FloatLit.nan
  else
    let ipg := cs1.takeWhile isDigitU
    let r1 := cs1.dropWhile isDigitU
    let (fpg, r2) : List Char × List Char :=
      match r1 with
      | '.' :: r => (r.takeWhile isDigitU, r.dropWhile isDigitU)
      | r => ([], r)
    if ¬ (ipg.isEmpty || validGroup ipg) then Option.none
    else if ¬ (fpg.isEmpty || validGroup fpg) then Option.none
    else
      let ip := ipg.filter Char.isDigit
      let fp := fpg.filter Char.isDigit
      if ip.isEmpty ∧ fp.isEmpty then
        Option.none
      else
        match r2 with
        | [] => some (FloatLit.finite neg (natOfDigits (ip ++ fp)) (-(fp.length : Int)))
        | 'e' :: re =>
          let (eneg, re1) : Bool × List Char :=
            match re with
            | '-' :: rr => (true, rr)
            | '+' :: rr => (false, rr)
            | rr => (false, rr)
          let edg := re1.takeWhile isDigitU
          let r3 := re1.dropWhile isDigitU
          if ¬ validGroup edg ∨ r3 ≠ [] then Option.none
          else
            some (FloatLit.finite neg (natOfDigits (ip ++ fp))
              ((if eneg then -(natOfDigits (edg.filter Char.isDigit) : Int)
                else (natOfDigits (edg.filter Char.isDigit) : Int))
                - (fp.length : Int)))
        | _ => Option.none

/-- The binary64 overflow boundary: under IEEE round-to-nearest-even (what
CPython's `float()` does) a real of magnitude at least `2^1024 - 2^970`
rounds to infinity, everything smaller to a finite double.  Written as an
explicit numeral so that proofs can evaluate it; `overflowThreshold_eq`
checks it against the closed form. -/
def overflowThreshold : Nat := 179769313486231580793728971405303415079934132710037826936173778980444968292764750946649017977587207096330286416692887910946555547851940402630657488671505820681908902000708383676273854845817711531764475730270069855571366959622842914819860834936475292719074168444365510704342711559699508093042880177904174497792

/-- The numeral above is `2^1024 - 2^970`. -/
lemma overflowThreshold_eq : overflowThreshold = 2 ^ 1024 - 2 ^ 970 := by
  unfold overflowThreshold
  norm_num

/-- Powers of ten, written out so that proofs can evaluate them. -/
def pow10 : Nat → Nat
  | 0 => 1
  | n + 1 => 10 * pow10 n

/-- Does the exact decimal `m * 10^e` overflow binary64? -/
def overflowsB64 (m : Nat) (e : Int) : Bool :=
  if 0 ≤ e then decide (overflowThreshold ≤ m * pow10 e.toNat)
  else decide (overflowThreshold * pow10 (-e).toNat ≤ m)

/-- The value `float()` actually returns for a parsed literal: an
overflowing finite decimal becomes a signed infinity (`float("1e400")` is
`inf`); other values are carried exactly.  Below the overflow boundary the
model keeps the exact decimal rather than the rounded double, so theorems
state concrete integer results only at inputs where truncating the exact
decimal and truncating the double coincide. -/
def floatRound : FloatLit → FloatLit
  | FloatLit.finite neg m e =>
      if overflowsB64 m e then FloatLit.inf neg else FloatLit.finite neg m e
  | v => v

/-- Python `int()` applied to a finite decimal: truncation toward zero. -/
def pyIntTrunc (neg : Bool) (m : Nat) (e : Int) : Int :=
  let mag : Nat := if 0 ≤ e then m * 10 ^ e.toNat else m / 10 ^ (-e).toNat
  if neg then -(mag : Int) else (mag : Int)

/-- Embeds `trending._parse_star_count` (src/fetcher/trending.py:99-112):
clean the text, then `int(float(text))` with only `ValueError` caught.
`Except.ok` is a normal return (an unparseable literal or NaN is a caught
`ValueError`, yielding 0); `Except.error` is the uncaught `OverflowError`
raised by `int()` on an infinite float — an explicit `inf` literal or a
finite literal that `float()` overflows to infinity. -/
def parse_star_count (text : String) : Except String Int :=
  match Option.map floatRound (parsePyFloat (cleanStarText text)) with
  | Option.none => Except.ok 0
  | some (FloatLit.finite neg m e) => Except.ok (pyIntTrunc neg m e)
  | some FloatLit.nan => Except.ok 0
  | some (FloatLit.inf _) => Except.error "OverflowError"

/-- The client's TTL cache (`GitHubClient._cache`): `(endpoint, params)` key
→ `(stored-at time, value)`.  Time is an abstract integer clock standing for
`datetime.now()`; the TTL is `config.CACHE_TTL_SECONDS` in the same units. -/
def Cache : Type := String × String → Option (Int × List PyDict)

/-- A fresh client's empty cache. -/
def emptyCache : Cache := fun _ => Option.none

/-- Embeds `GitHubClient._get_cached` (src/fetcher/github_client.py:36-50):
return the stored value while `now - cached_time < ttl`; otherwise delete
the stale entry and miss.  The returned cache reflects the deletion the
Python method performs in place. -/
def getCached (ttl now : Int) (c : Cache) (k : String × String) :
    Option (List PyDict) × Cache :=
  match c k with
  | some (t, v) =>
      if now - t < ttl then (some v, c)
      else (Option.none, fun k' => if k' = k then Option.none else c k')
  | Option.none => (Option.none, c)

/-- Embeds `GitHubClient._set_cached` (lines 52-59). -/
def setCached (now : Int) (c : Cache) (k : String × String)
    (v : List PyDict) : Cache :=
  fun k' => if k' = k then some (now, v) else c k'

/-- What the provider does on the one underlying search request: succeed
with a page of repositories, raise `RateLimitExceededException`, or raise
another `GithubException`. -/
inductive ProviderResult where
  | ok (repos : List PyDict)
  | rateLimited
  | apiError

/-- Everything observable about one `search_repositories` call: the returned
list, the cache afterwards, the durations slept (`time.sleep` calls), and
whether the underlying request was performed. -/
structure SearchResult where
  value : List PyDict
  cache : Cache
  sleeps : List Int
  calledProvider : Bool

/-- The cache key built at src/fetcher/github_client.py:79. -/
def searchCacheKey (query sortBy ord : String) (perPage : Nat) :
    String × String :=
  ("search", query ++ "-" ++ sortBy ++ "-" ++ ord ++ "-" ++ toString perPage)

/-- Embeds `GitHubClient.search_repositories` (lines 61-104): consult the
cache first; on a miss perform the request; on success cache and return the
first `per_page` extracted records; on `RateLimitExceededException` call
`_handle_rate_limit` — a single fixed `time.sleep(60)` (lines 208-216) —
and return `[]`; on any other `GithubException` return `[]`. -/
def search_repositories (ttl now : Int) (provider : ProviderResult)
    (query sortBy ord : String) (perPage : Nat) (c : Cache) : SearchResult :=
  match getCached ttl now c (searchCacheKey query sortBy ord perPage) with
  | (some v, c') => ⟨v, c', [], false⟩
  | (Option.none, c') =>
    match provider with
    | ProviderResult.ok repos =>
        ⟨repos.take perPage,
          setCached now c' (searchCacheKey query sortBy ord perPage)
            (repos.take perPage), [], true⟩
    | ProviderResult.rateLimited => ⟨[], c', [60], true⟩
    | ProviderResult.apiError => ⟨[], c', [], true⟩

/-- Helper: a fresh entry within TTL is served and the cache untouched. -/
lemma getCached_hit (ttl now t : Int) (v : List PyDict) (c : Cache)
    (k : String × String) (h : c k = some (t, v)) (hlt : now - t < ttl) :
    getCached ttl now c k = (some v, c) := by
  simp [getCached, h, hlt]

/-- Helper: an entry at or past TTL misses and is evicted. -/
lemma getCached_expired (ttl now t : Int) (v : List PyDict) (c : Cache)
    (k : String × String) (h : c k = some (t, v)) (hge : ¬ (now - t < ttl)) :
    getCached ttl now c k =
      (Option.none, fun k' => if k' = k then Option.none else c k') := by
  simp [getCached, h, hge]

/-- Helper: an absent key misses and leaves the cache unchanged. -/
lemma getCached_absent (ttl now : Int) (c : Cache) (k : String × String)
    (h : c k = Option.none) : getCached ttl now c k = (Option.none, c) := by
  simp [getCached, h]

/-- Counterexample to claim C3: under a rate-limit signal the client's
return value is identical to that of an empty successful search, and its
sleep trace is the single fixed duration 60 — no bounded retry loop, no
exponential backoff or jitter, no distinguishable `RateLimited` outcome. -/
theorem search_rateLimited_indistinguishable_cex :
    (search_repositories 3600 0 ProviderResult.rateLimited
        "llm" "stars" "desc" 30 emptyCache).value
      = (search_repositories 3600 0 (ProviderResult.ok [])
        "llm" "stars" "desc" 30 emptyCache).value ∧
      (search_repositories 3600 0 ProviderResult.rateLimited
        "llm" "stars" "desc" 30 emptyCache).sleeps = [60] :=
  ⟨rfl, rfl⟩

/-- Claim C3 as amended: on a rate-limit signal (with the key not cached)
the client sleeps exactly once for a fixed 60 seconds, performs no retry,
and returns an empty list — the very value an empty successful search
returns, so callers cannot tell "no data" from "throttled". -/
theorem search_rateLimited_fixed_sleep (ttl now : Int)
    (query sortBy ord : String) (perPage : Nat) (c : Cache)
    (h : c (searchCacheKey query sortBy ord perPage) = Option.none) :
    search_repositories ttl now ProviderResult.rateLimited
        query sortBy ord perPage c = ⟨[], c, [60], true⟩ ∧
      (search_repositories ttl now (ProviderResult.ok [])
        query sortBy ord perPage c).value = [] := by
  have hc := getCached_absent ttl now c (searchCacheKey query sortBy ord perPage) h
  constructor
  · unfold search_repositories
    rw [hc]
  · unfold search_repositories
    rw [hc]
    simp

/-- Concrete run of the amended C3 theorem on an empty cache. -/
theorem search_rateLimited_fixed_sleep_witness :
    search_repositories 3600 0 ProviderResult.rateLimited
        "llm" "stars" "desc" 30 emptyCache = ⟨[], emptyCache, [60], true⟩ ∧
      (search_repositories 3600 0 (ProviderResult.ok [])
        "llm" "stars" "desc" 30 emptyCache).value = [] :=
  search_rateLimited_fixed_sleep 3600 0 "llm" "stars" "desc" 30 emptyCache rfl

/-- Claim C9: a lookup strictly within TTL of the stored timestamp returns
the cached value without performing the underlying request; a lookup at or
after TTL misses, evicts the stale entry, performs the request exactly once
and (on success) re-caches, so a further access within TTL of the new store
is again served from the cache without a request. -/
theorem cache_ttl_hit_and_single_miss (ttl now t : Int) (v : List PyDict)
    (query sortBy ord : String) (perPage : Nat) (c : Cache)
    (hstored : c (searchCacheKey query sortBy ord perPage) = some (t, v)) :
    (now - t < ttl → ∀ p,
      search_repositories ttl now p query sortBy ord perPage c
        = ⟨v, c, [], false⟩) ∧
    (ttl ≤ now - t →
      (∀ repos,
        (search_repositories ttl now (ProviderResult.ok repos)
          query sortBy ord perPage c).calledProvider = true ∧
        (search_repositories ttl now (ProviderResult.ok repos)
          query sortBy ord perPage c).value = repos.take perPage ∧
        (search_repositories ttl now (ProviderResult.ok repos)
            query sortBy ord perPage c).cache
            (searchCacheKey query sortBy ord perPage)
          = some (now, repos.take perPage) ∧
        (∀ now₂ p₂, now₂ - now < ttl →
          search_repositories ttl now₂ p₂ query sortBy ord perPage
              ((search_repositories ttl now (ProviderResult.ok repos)
                query sortBy ord perPage c).cache)
            = ⟨repos.take perPage,
                (search_repositories ttl now (ProviderResult.ok repos)
                  query sortBy ord perPage c).cache, [], false⟩)) ∧
      (search_repositories ttl now ProviderResult.rateLimited
          query sortBy ord perPage c).cache
          (searchCacheKey query sortBy ord perPage) = Option.none) := by
  constructor
  · intro hlt p
    unfold search_repositories
    rw [getCached_hit ttl now t v c _ hstored hlt]
  · intro hge
    have hnot : ¬ (now - t < ttl) := by omega
    have hex := getCached_expired ttl now t v c
      (searchCacheKey query sortBy ord perPage) hstored hnot
    constructor
    · intro repos
      have hcache : (search_repositories ttl now (ProviderResult.ok repos)
          query sortBy ord perPage c).cache
          (searchCacheKey query sortBy ord perPage)
          = some (now, repos.take perPage) := by
        unfold search_repositories
        rw [hex]
        simp [setCached]
      refine ⟨?_, ?_, hcache, ?_⟩
      · unfold search_repositories
        rw [hex]
      · unfold search_repositories
        rw [hex]
      · intro now₂ p₂ hlt₂
        revert hcache
        generalize (search_repositories ttl now (ProviderResult.ok repos)
          query sortBy ord perPage c).cache = c₂
        intro hcache
        unfold search_repositories
        rw [getCached_hit ttl now₂ now (repos.take perPage) c₂ _ hcache hlt₂]
    · unfold search_repositories
      rw [hex]
      simp

/-- Concrete run of the C9 theorem: a hit 10 time units after storing under
a 3600-unit TTL is served from the cache with no provider call. -/
theorem cache_ttl_hit_and_single_miss_witness :
    search_repositories 3600 10 ProviderResult.apiError
        "llm" "stars" "desc" 30
        (fun k => if k = searchCacheKey "llm" "stars" "desc" 30 then
          some ((0 : Int), ([] : List PyDict)) else Option.none)
      = ⟨[], (fun k => if k = searchCacheKey "llm" "stars" "desc" 30 then
          some ((0 : Int), ([] : List PyDict)) else Option.none), [], false⟩ :=
  (cache_ttl_hit_and_single_miss 3600 10 0 [] "llm" "stars" "desc" 30
      (fun k => if k = searchCacheKey "llm" "stars" "desc" 30 then
        some ((0 : Int), ([] : List PyDict)) else Option.none)
      (by simp)).1 (by omega) ProviderResult.apiError

/-- The client as the watchlist pass observes it: `get_repository` returns
a record, `None` (both for not-found and for rate-limited, lines 126-132 of
github_client.py), or raises; the commit/contributor helpers return a value
or raise (they swallow `GithubException` internally but can still raise,
and the watchlist loop catches any exception). -/
structure WatchClient where
  getRepo : String → Except String (Option PyDict)
  getCommits : String → Except String PyVal
  getContribs : String → Except String PyVal

/-- The per-identity body of the `fetch_watchlist` loop
(src/fetcher/watchlist.py:24-48): `None` when the identity was skipped
(fetch returned `None` or something raised), otherwise the snapshot with
the source tag, commits, contributors and fetch timestamp added. -/
def fetchWatchItem (c : WatchClient) (now n : String) : Option PyDict :=
  match c.getRepo n with
  | Except.error _ => Option.none
  | Except.ok Option.none => Option.none
  | Except.ok (some repoData) =>
    match c.getCommits n with
    | Except.error _ => Option.none
    | Except.ok commits =>
      match c.getContribs n with
      | Except.error _ => Option.none
      | Except.ok contributors =>
        some (setKeys repoData [("source", PyVal.str "watchlist"),
          ("recent_commits", commits), ("contributors", contributors),
          ("fetched_at", PyVal.str now)])

/-- Embeds `watchlist.fetch_watchlist` (src/fetcher/watchlist.py:13-50):
walk the configured identities in order, appending each snapshot that the
loop body produces and skipping the identities on which it fails. -/
def fetch_watchlist (c : WatchClient) (now : String) : List String → List PyDict
  | [] => []
  | n :: rest =>
    match fetchWatchItem c now n with
    | Option.none => fetch_watchlist c now rest
    | some d => d :: fetch_watchlist c now rest

/-- A watchlist identity on which the pass fails: the lookup raises, comes
back empty (not-found or rate-limited), or a later per-item call raises. -/
def watchItemFails (c : WatchClient) (n : String) : Prop :=
  (∃ e, c.getRepo n = Except.error e) ∨ c.getRepo n = Except.ok Option.none ∨
    (∃ e, c.getCommits n = Except.error e) ∨
    (∃ e, c.getContribs n = Except.error e)

/-- Helper: a failing identity contributes nothing to the batch. -/
lemma fetchWatchItem_eq_none (c : WatchClient) (now n : String)
    (h : watchItemFails c n) : fetchWatchItem c now n = Option.none := by
  unfold fetchWatchItem
  rcases h with ⟨e, he⟩ | he | ⟨e, he⟩ | ⟨e, he⟩
  · rw [he]
  · rw [he]
  · cases hr : c.getRepo n with
    | error _ => rfl
    | ok o =>
      cases o with
      | none => rfl
      | some d => rw [he]
  · cases hr : c.getRepo n with
    | error _ => rfl
    | ok o =>
      cases o with
      | none => rfl
      | some d =>
        cases hcm : c.getCommits n with
        | error _ => rfl
        | ok cv => rw [he]

/-- Claim C8: a failure on one watchlist identity is absorbed inside the
loop — the pass still returns exactly the snapshots of the identities
before and after it, and no failure propagates to the caller. -/
theorem fetch_watchlist_partial_failure_isolation (c : WatchClient)
    (now : String) (xs ys : List String) (b : String)
    (hb : watchItemFails c b) :
    fetch_watchlist c now (xs ++ b :: ys) =
      fetch_watchlist c now xs ++ fetch_watchlist c now ys := by
  have hcons : ∀ n rest, fetch_watchlist c now (n :: rest) =
      match fetchWatchItem c now n with
      | Option.none => fetch_watchlist c now rest
      | some d => d :: fetch_watchlist c now rest := fun _ _ => rfl
  induction xs with
  | nil =>
    show fetch_watchlist c now (b :: ys) = fetch_watchlist c now ([] : List String)
      ++ fetch_watchlist c now ys
    rw [hcons, fetchWatchItem_eq_none c now b hb]
    rfl
  | cons x xs ih =>
    show fetch_watchlist c now (x :: (xs ++ b :: ys)) = _
    rw [hcons, ih, hcons]
    cases fetchWatchItem c now x
    · rfl
    · rfl

/-- A concrete five-identity client for the C8 witness: `repo3` raises. -/
def clientC8 : WatchClient where
  getRepo := fun n =>
    if n = "o/repo3" then Except.error "GithubException"
    else Except.ok (some (dictOf [("full_name", PyVal.str n),
      ("stars", PyVal.int 10)]))
  getCommits := fun _ => Except.ok (PyVal.list [])
  getContribs := fun _ => Except.ok (PyVal.list [])

/-- Concrete run of the C8 theorem: five identities, one raising, still
yield the snapshots of the other four. -/
theorem fetch_watchlist_partial_failure_isolation_witness :
    fetch_watchlist clientC8 "t0"
        (["o/repo1", "o/repo2"] ++ "o/repo3" :: ["o/repo4", "o/repo5"]) =
      fetch_watchlist clientC8 "t0" ["o/repo1", "o/repo2"] ++
        fetch_watchlist clientC8 "t0" ["o/repo4", "o/repo5"] ∧
      (fetch_watchlist clientC8 "t0"
        ["o/repo1", "o/repo2", "o/repo3", "o/repo4", "o/repo5"]).length = 4 :=
  ⟨fetch_watchlist_partial_failure_isolation clientC8 "t0"
      ["o/repo1", "o/repo2"] ["o/repo4", "o/repo5"] "o/repo3"
      (Or.inl ⟨"GithubException", rfl⟩),
    rfl⟩

/-- The star delta computed at src/fetcher/watchlist.py:74-76:
`repo.get("stars", 0) - previous_data.get(full_name, {}).get("stars", 0)`. -/
def starDelta (previous : String → Option PyDict) (repo : PyDict) : Int :=
  getIntD repo "stars" 0 -
    (match previous (getStrD repo "full_name" "") with
     | some prev => getIntD prev "stars" 0
     | Option.none => 0)

/-- The filtering loop of `get_watchlist_changes` (watchlist.py:69-80):
keep a snapshot only when its delta is strictly positive, recording the
delta on the record as `stars_delta`. -/
def buildChanges (previous : String → Option PyDict) : List PyDict → List PyDict
  | [] => []
  | r :: rest =>
    if 0 < starDelta previous r then
      setKey r "stars_delta" (PyVal.int (starDelta previous r)) ::
        buildChanges previous rest
    else buildChanges previous rest

/-- Embeds `watchlist.get_watchlist_changes` (src/fetcher/watchlist.py:53-85):
fetch the current watchlist snapshots, keep those with strictly positive
star delta against `previous`, and sort by delta descending (Python's
stable `list.sort` with `reverse=True`). -/
def get_watchlist_changes (c : WatchClient) (now : String) (watch : List String)
    (previous : String → Option PyDict) : List PyDict :=
  (buildChanges previous (fetch_watchlist c now watch)).mergeSort
    (fun a b => decide (getIntD b "stars_delta" 0 ≤ getIntD a "stars_delta" 0))

/-- Helper: membership in the filtering loop's output. -/
lemma mem_buildChanges (previous : String → Option PyDict) (l : List PyDict)
    (r : PyDict) :
    r ∈ buildChanges previous l ↔
      ∃ r0 ∈ l, 0 < starDelta previous r0 ∧
        r = setKey r0 "stars_delta" (PyVal.int (starDelta previous r0)) := by
  induction l with
  | nil => simp [buildChanges]
  | cons x xs ih =>
    by_cases h : 0 < starDelta previous x
    · simp only [buildChanges, if_pos h, List.mem_cons, ih]
      constructor
      · rintro (hr | ⟨r0, hr0, hpos, hre⟩)
        · exact ⟨x, Or.inl rfl, h, hr⟩
        · exact ⟨r0, Or.inr hr0, hpos, hre⟩
      · rintro ⟨r0, hr0 | hr0, hpos, hre⟩
        · exact Or.inl (hr0 ▸ hre)
        · exact Or.inr ⟨r0, hr0, hpos, hre⟩
    · simp only [buildChanges, if_neg h, ih]
      constructor
      · rintro ⟨r0, hr0, hpos, hre⟩
        exact ⟨r0, List.mem_cons_of_mem x hr0, hpos, hre⟩
      · rintro ⟨r0, hr0, hpos, hre⟩
        rcases List.mem_cons.mp hr0 with hx | hx
        · exact absurd (hx ▸ hpos) h
        · exact ⟨r0, hx, hpos, hre⟩

/-- Claim C7: a record is in the changes view exactly when it is a current
watchlist snapshot whose star delta against the last persisted stars is
strictly positive, decorated with that delta — zero and negative deltas are
never surfaced. -/
theorem get_watchlist_changes_strictly_positive (c : WatchClient)
    (now : String) (watch : List String) (previous : String → Option PyDict)
    (r : PyDict) :
    r ∈ get_watchlist_changes c now watch previous ↔
      ∃ r0 ∈ fetch_watchlist c now watch, 0 < starDelta previous r0 ∧
        r = setKey r0 "stars_delta" (PyVal.int (starDelta previous r0)) := by
  unfold get_watchlist_changes
  rw [List.mem_mergeSort]
  exact mem_buildChanges previous (fetch_watchlist c now watch) r

/-- A client for the C7 witness: three watched identities with current
stars 150, 100 and 90. -/
def clientC7 : WatchClient where
  getRepo := fun n =>
    Except.ok (some (dictOf [("full_name", PyVal.str n),
      ("stars", PyVal.int (if n = "w/a" then 150 else if n = "w/b" then 100 else 90))]))
  getCommits := fun _ => Except.ok (PyVal.list [])
  getContribs := fun _ => Except.ok (PyVal.list [])

/-- Previous persisted stars: 100 for every identity. -/
def previousC7 : String → Option PyDict :=
  fun n => some (dictOf [("full_name", PyVal.str n), ("stars", PyVal.int 100)])

/-- The current snapshot of `w/a` as the watchlist pass decorates it. -/
def wAsnap : PyDict :=
  setKeys (dictOf [("full_name", PyVal.str "w/a"), ("stars", PyVal.int 150)])
    [("source", PyVal.str "watchlist"), ("recent_commits", PyVal.list []),
      ("contributors", PyVal.list []), ("fetched_at", PyVal.str "t")]

/-- Concrete run of the C7 theorem: previous stars 100 and current 150
surface a delta of 50; current 100 (stasis) and 90 (regression) do not —
the changes view holds exactly one record. -/
theorem get_watchlist_changes_strictly_positive_witness :
    setKey wAsnap "stars_delta" (PyVal.int 50) ∈
        get_watchlist_changes clientC7 "t" ["w/a", "w/b", "w/c"] previousC7 ∧
      (get_watchlist_changes clientC7 "t" ["w/a", "w/b", "w/c"] previousC7).length
        = 1 :=
  ⟨(get_watchlist_changes_strictly_positive clientC7 "t" ["w/a", "w/b", "w/c"]
      previousC7 (setKey wAsnap "stars_delta" (PyVal.int 50))).mpr
    ⟨wAsnap, List.mem_cons_self _ _, by decide, rfl⟩,
    by unfold get_watchlist_changes; rw [List.length_mergeSort]; rfl⟩

/-- Claim C6, at the failing input: `"1,234"` does yield 1234, but `"1.2k"`
yields 1 rather than 1200 — the code turns `k` into the literal digits
`"000"`, producing `"1.2000"`, whose float value 1.2 truncates to 1. -/
theorem parse_star_count_k_suffix_bug :
    parse_star_count "1,234" = Except.ok 1234 ∧
      parse_star_count "1.2k" = Except.ok 1 ∧
      parse_star_count "1.2k" ≠ Except.ok 1200 := by
  refine ⟨rfl, rfl, ?_⟩
  intro h
  rw [show parse_star_count "1.2k" = Except.ok 1 from rfl] at h
  exact absurd (Except.ok.inj h) (by omega)

set_option maxRecDepth 8000 in
/-- Counterexample to claim C10: `_parse_star_count` is not total — on the
input `"inf"` the cleaned text parses as an infinite float, and on
`"1e400"` `float()` overflows to infinity; in both cases `int()` raises an
`OverflowError` that the `except ValueError` handler does not catch, so the
call raises instead of returning 0. -/
theorem parse_star_count_inf_raises_cex :
    parse_star_count "inf" = Except.error "OverflowError" ∧
      parse_star_count "1e400" = Except.error "OverflowError" :=
  ⟨rfl, rfl⟩

/-- Claim C10 as amended, scoped to inputs whose cleaned text is ASCII
(where the embedded cleaning and `float()` grammar coincide with CPython's):
whenever `float()` of the cleaned text does not yield an infinity — neither
an explicit `inf`/`infinity` literal nor a finite literal overflowing
binary64 — `_parse_star_count` returns an integer, and it returns 0
whenever the cleaned text is unparseable; only an infinite `float()` result
escapes as an uncaught `OverflowError`. -/
theorem parse_star_count_total_unless_infinite (s : String)
    (hascii : ∀ c ∈ cleanStarText s, c.toNat < 128)
    (h : ∀ b, Option.map floatRound (parsePyFloat (cleanStarText s))
      ≠ some (FloatLit.inf b)) :
    (∃ n : Int, parse_star_count s = Except.ok n) ∧
      (parsePyFloat (cleanStarText s) = Option.none →
        parse_star_count s = Except.ok 0) := by
  unfold parse_star_count
  constructor
  · cases hp : Option.map floatRound (parsePyFloat (cleanStarText s)) with
    | none => exact ⟨0, rfl⟩
    | some fl =>
      cases fl with
      | finite neg m e => exact ⟨pyIntTrunc neg m e, rfl⟩
      | inf b => exact absurd hp (h b)
      | nan => exact ⟨0, rfl⟩
  · intro hp
    rw [hp]
    rfl

/-- Concrete run of the amended C10 theorem at the unparseable text
`"abc"`: the parse fails, so the count is 0 and no exception escapes. -/
theorem parse_star_count_total_unless_infinite_witness :
    (∃ n : Int, parse_star_count "abc" = Except.ok n) ∧
      (parsePyFloat (cleanStarText "abc") = Option.none →
        parse_star_count "abc" = Except.ok 0) :=
  parse_star_count_total_unless_infinite "abc" (by decide) (by decide)

/-- Claim C1 as amended: the merged view is the plain concatenation of the
three adapters' outputs, so an identity appears once per source occurrence —
no cross-source deduplication, provenance keeping, or annotation union
happens there. -/
theorem aggregateAll_counts_additive (i : String) (t s w : List PyDict) :
    countIdent i (aggregateAll t s w) =
      countIdent i t + countIdent i s + countIdent i w := by
  simp [aggregateAll, countIdent, List.countP_append, Nat.add_assoc]
